import Mathlib

/-!
Verification of the CreateWriter subscription / usage-metering engine.

The definitions below are a shallow embedding of the JavaScript source:
* `src/models/Subscription.js` (`checkAndResetUsage`, `checkLimit`,
  `incrementUsage`, `getForUser`),
* `src/controllers/subscriptionController.js` (`webhook`, `validatePromo`,
  `createOrder`, `verifyPayment`),
* `src/utils/razorpay.js` (`createOrder`, `verifyPaymentSignature`),
* `src/middleware/usageLimit.js` (`checkUsageLimit`).

JavaScript `Date` values are modelled at day granularity by `JSDate`
(year / zero-based month / day-of-month), with the `setMonth`/`setFullYear`
day-overflow semantics of ECMAScript reproduced explicitly.  Monetary
amounts are modelled by `Rat`; `Math.round` is `jsRound`.  Mongoose
documents become Lean structures and the database becomes an explicit
`Store` value threaded through each operation.
-/

namespace CreateWriter

/-- A JavaScript `Date` at day granularity: `month` is zero-based (0 =
January), matching `getMonth`/`setMonth`. -/
structure JSDate where
  year : Int
  month : Nat
  day : Nat
deriving DecidableEq, Repr

/-- Gregorian leap-year test. -/
def isLeap (y : Int) : Bool :=
  (y % 4 == 0 && y % 100 != 0) || y % 400 == 0

/-- Days in the zero-based month `m` of year `y`. -/
def daysInMonth (y : Int) (m : Nat) : Nat :=
  match m with
  | 0 => 31
  | 1 => if isLeap y then 29 else 28
  | 2 => 31
  | 3 => 30
  | 4 => 31
  | 5 => 30
  | 6 => 31
  | 7 => 31
  | 8 => 30
  | 9 => 31
  | 10 => 30
  | _ => 31

/-- Strict `<` on dates (lexicographic on year, month, day), the order JS
uses when comparing `Date` time values at day granularity. -/
def JSDate.lt (a b : JSDate) : Bool :=
  a.year < b.year ||
    (a.year == b.year &&
      (a.month < b.month || (a.month == b.month && a.day < b.day)))

/-- Non-strict `≤` on dates. -/
def JSDate.le (a b : JSDate) : Bool :=
  !(JSDate.lt b a)

/-- ECMAScript `d.setMonth(d.getMonth() + 1)`: the month index is advanced
(wrapping into the next year), the day-of-month is kept, and a day beyond
the end of the target month overflows into the following month. -/
def addOneMonthJS (d : JSDate) : JSDate :=
  let y := if d.month + 1 ≥ 12 then d.year + 1 else d.year
  let m := if d.month + 1 ≥ 12 then d.month + 1 - 12 else d.month + 1
  if d.day ≤ daysInMonth y m then
    ⟨y, m, d.day⟩
  else
    let y2 := if m + 1 ≥ 12 then y + 1 else y
    let m2 := if m + 1 ≥ 12 then m + 1 - 12 else m + 1
    ⟨y2, m2, d.day - daysInMonth y m⟩

/-- ECMAScript `d.setFullYear(d.getFullYear() + 1)`: same month and day,
with Feb 29 overflowing to Mar 1 in a non-leap target year. -/
def addOneYearJS (d : JSDate) : JSDate :=
  let y := d.year + 1
  if d.day ≤ daysInMonth y d.month then
    ⟨y, d.month, d.day⟩
  else
    ⟨y, d.month + 1, d.day - daysInMonth y d.month⟩

/-- Modelled from the spec: "`periodEnd` → now advanced by exactly one
calendar month (day-of-month preserved where possible; overflow at
month-end is acceptable to clamp, e.g. Jan 31 + 1 month may land on the
last day of February)" — the clamped calendar-month successor the spec
asks for, used only to compare against the source's arithmetic. -/
def addOneMonthClamped (d : JSDate) : JSDate :=
  let y := if d.month + 1 ≥ 12 then d.year + 1 else d.year
  let m := if d.month + 1 ≥ 12 then d.month + 1 - 12 else d.month + 1
  ⟨y, m, min d.day (daysInMonth y m)⟩

/-- `Math.round` on a rational: round half toward positive infinity. -/
def jsRound (x : Rat) : Int :=
  ⌊x + 1 / 2⌋

/-- The per-feature usage counters and the usage period of a subscription
(`subscriptionSchema.usage`). -/
structure Usage where
  lyricsGenerated : Int
  musicGenerated : Int
  videoGenerated : Int
  voiceGenerated : Int
  periodStart : JSDate
  periodEnd : JSDate
deriving DecidableEq, Repr

/-- The `limits` sub-document of a subscription plan. -/
structure Limits where
  lyricsPerMonth : Int
  musicGenerations : Int
  videoGenerations : Int
  voiceGenerations : Int
deriving DecidableEq, Repr

/-- The result shape of `checkLimit`. -/
structure QuotaDecision where
  allowed : Bool
  current : Int
  limit : Int
  remaining : Int
deriving DecidableEq, Repr

/-- The `mapping[type]` lookup table of `checkLimit`: the matching
(usage counter, plan limit) pair, or `none` for an unrecognized type. -/
def limitMapping (usage : Usage) (type : String) (planLimits : Limits) :
    Option (Int × Int) :=
  if type = "lyrics" then some (usage.lyricsGenerated, planLimits.lyricsPerMonth)
  else if type = "music" then some (usage.musicGenerated, planLimits.musicGenerations)
  else if type = "video" then some (usage.videoGenerated, planLimits.videoGenerations)
  else if type = "voice" then some (usage.voiceGenerated, planLimits.voiceGenerations)
  else none

/-- `subscriptionSchema.methods.checkLimit` from `Subscription.js`. -/
def checkLimit (usage : Usage) (type : String) (planLimits : Limits) :
    QuotaDecision :=
  match limitMapping usage type planLimits with
  | none => ⟨false, 0, 0, 0⟩
  | some (current, limit) =>
    if limit = -1 then ⟨true, current, -1, -1⟩
    else if limit = 0 then ⟨false, current, 0, 0⟩
    else ⟨decide (current < limit), current, limit, max 0 (limit - current)⟩

/-- A promo offer nested on a plan (`offerSchema` in
`SubscriptionPlan.js`); `code` is stored uppercase by the schema. -/
structure Offer where
  code : String
  discountPercentage : Rat
  validFrom : JSDate
  validUntil : JSDate
  maxRedemptions : Int
  currentRedemptions : Int
  isActive : Bool
deriving DecidableEq, Repr

/-- The `pricing` sub-document of a plan. -/
structure Pricing where
  monthly : Rat
  yearly : Rat
  currency : String
deriving DecidableEq, Repr

/-- A subscription plan (`subscriptionPlanSchema`), restricted to the
fields the metering / billing code reads. -/
structure Plan where
  id : String
  name : String
  tier : String
  isActive : Bool
  pricing : Pricing
  limits : Limits
  offers : List Offer
deriving DecidableEq, Repr

/-- One entry of `paymentHistory` (`paymentHistorySchema`). -/
structure PaymentEntry where
  razorpayPaymentId : String
  amount : Rat
  currency : String
  status : String
  paidAt : JSDate
deriving DecidableEq, Repr

/-- The `adminOverride` sub-document of a subscription. -/
structure AdminOverride where
  isOverridden : Bool
  overriddenBy : Option String
  reason : Option String
  previousPlan : Option String
deriving DecidableEq, Repr

/-- A subscription document (`subscriptionSchema`).  `plan` holds the
referenced plan's id; population is modelled by looking the id up in the
store's plan list. -/
structure Subscription where
  user : String
  plan : String
  status : String
  billingCycle : String
  startDate : JSDate
  endDate : Option JSDate
  renewalDate : Option JSDate
  orderId : Option String
  paymentId : Option String
  usage : Usage
  adminOverride : AdminOverride
  appliedPromo : Option (String × Rat)
  paymentHistory : List PaymentEntry
deriving DecidableEq, Repr

/-- The persistent store: the `subscriptionplans` and `subscriptions`
collections. -/
structure Store where
  plans : List Plan
  subs : List Subscription
deriving DecidableEq, Repr

/-- `SubscriptionPlan.findById`. -/
def findPlan (store : Store) (id : String) : Option Plan :=
  store.plans.find? (fun p => p.id == id)

/-- `SubscriptionPlan.findOne({ tier: 'free' })`. -/
def findFreePlan (store : Store) : Option Plan :=
  store.plans.find? (fun p => p.tier == "free")

/-- `Subscription.findOne({ user: userId })`. -/
def findSub (store : Store) (userId : String) : Option Subscription :=
  store.subs.find? (fun s => s.user == userId)

/-- `Subscription.findOne({ 'razorpay.orderId': oid })`. -/
def findSubByOrder (store : Store) (oid : String) : Option Subscription :=
  store.subs.find? (fun s => s.orderId == some oid)

/-- `subscription.save()`: replace the stored document(s) for this user. -/
def saveSub (store : Store) (s : Subscription) : Store :=
  { store with subs := store.subs.map (fun t => if t.user == s.user then s else t) }

/-- `Subscription.create`: insert a fresh document. -/
def insertSub (store : Store) (s : Subscription) : Store :=
  { store with subs := store.subs ++ [s] }

/-- `plan.save()`: replace the stored plan with the same id. -/
def savePlan (store : Store) (p : Plan) : Store :=
  { store with plans := store.plans.map (fun q => if q.id == p.id then p else q) }

/-- `subscriptionSchema.methods.checkAndResetUsage`: if `now` is past the
period end, zero the four counters and restart the period at `now`, the
new end being `now` advanced by `setMonth(getMonth() + 1)`; returns the
updated document and whether a reset was performed. -/
def checkAndResetUsage (now : JSDate) (s : Subscription) :
    Subscription × Bool :=
  if JSDate.lt s.usage.periodEnd now then
    ({ s with usage :=
        { lyricsGenerated := 0, musicGenerated := 0, videoGenerated := 0,
          voiceGenerated := 0, periodStart := now,
          periodEnd := addOneMonthJS now } }, true)
  else (s, false)

/-- `subscriptionSchema.methods.incrementUsage`: bump the matching counter
and save; unknown type is a no-op. -/
def incrementUsage (store : Store) (s : Subscription) (type : String) : Store :=
  if type = "lyrics" then
    saveSub store { s with usage := { s.usage with lyricsGenerated := s.usage.lyricsGenerated + 1 } }
  else if type = "music" then
    saveSub store { s with usage := { s.usage with musicGenerated := s.usage.musicGenerated + 1 } }
  else if type = "video" then
    saveSub store { s with usage := { s.usage with videoGenerated := s.usage.videoGenerated + 1 } }
  else if type = "voice" then
    saveSub store { s with usage := { s.usage with voiceGenerated := s.usage.voiceGenerated + 1 } }
  else store

/-- The expiry test of `getForUser`:
`subscription.endDate && new Date() > subscription.endDate`. -/
def endDatePassed (now : JSDate) (s : Subscription) : Bool :=
  match s.endDate with
  | some e => JSDate.lt e now
  | none => false

/-- `subscriptionSchema.statics.getForUser`: find the user's subscription,
apply the lazy rollover check (saving when a reset happened), then if the
subscription's `endDate` has passed while the status is still `active`,
demote it to the free plan with status `expired` and billing cycle `none`
and save; returns the resulting document (or `none`) and the updated
store. -/
def getForUser (store : Store) (userId : String) (now : JSDate) :
    Option Subscription × Store :=
  match findSub store userId with
  | none => (none, store)
  | some sub0 =>
    let r := checkAndResetUsage now sub0
    let sub1 := r.1
    let store1 := if r.2 then saveSub store sub1 else store
    if endDatePassed now sub1 && sub1.status == "active" then
      match findFreePlan store1 with
      | some freePlan =>
        let sub2 := { sub1 with plan := freePlan.id, status := "expired",
                                billingCycle := "none" }
        (some sub2, saveSub store1 sub2)
      | none => (some sub1, store1)
    else (some sub1, store1)

/-- Outcome of the `checkUsageLimit` middleware: a rejection with an HTTP
status and error code, the 429 rejection carrying the usage payload, or
passing control on (with the subscription attached to the request when one
was loaded). -/
inductive GateResult where
  | reject (status : Nat) (code : String)
  | limitReject (status : Nat) (code : String) (current limit remaining : Int)
      (periodEnd : JSDate)
  | proceed (attached : Option Subscription)
deriving DecidableEq, Repr

/-- `checkUsageLimit(type)` from `middleware/usageLimit.js`.  `user?` is
the authenticated user, `loaded` the outcome of `Subscription.getForUser`
together with its populated plan: `Except.error` stands for any exception
thrown while loading or evaluating, which the middleware catches and
converts into a plain `next()` (fail-open). -/
def checkUsageLimit (type : String) (user? : Option String)
    (loaded : Except Unit (Option (Subscription × Option Plan))) : GateResult :=
  match user? with
  | none => .reject 401 "NO_USER"
  | some _ =>
    match loaded with
    | .error _ => .proceed none
    | .ok none => .reject 403 "NO_SUBSCRIPTION"
    | .ok (some (_, none)) => .reject 403 "NO_SUBSCRIPTION"
    | .ok (some (s, some plan)) =>
      if s.status != "active" && s.status != "trial" then
        .reject 403 "SUBSCRIPTION_INACTIVE"
      else
        let d := checkLimit s.usage type plan.limits
        if !d.allowed then
          if d.limit = 0 then .reject 403 "FEATURE_NOT_AVAILABLE"
          else .limitReject 429 "USAGE_LIMIT_REACHED" d.current d.limit 0
                 s.usage.periodEnd
        else .proceed (some s)

/-- `razorpay.verifyPaymentSignature`: HMAC (modelled as an opaque keyed
function `hmac`) over `orderId|paymentId`, compared in full against the
supplied signature; a missing secret fails. -/
def verifyPaymentSignature (hmac : String → String → String)
    (secret : Option String) (orderId paymentId signature : String) : Bool :=
  match secret with
  | none => false
  | some k => hmac k (orderId ++ "|" ++ paymentId) == signature

/-- `razorpay.verifyWebhookSignature`: HMAC over the serialized body with
the webhook secret. -/
def verifyWebhookSignature (hmac : String → String → String)
    (secret : Option String) (rawBody signature : String) : Bool :=
  match secret with
  | none => false
  | some k => hmac k rawBody == signature

/-- The amount field `razorpay.createOrder` sends to the gateway:
`Math.round(amount * 100)` (conversion to paise). -/
def razorpayOrderAmount (amount : Rat) : Int :=
  jsRound (amount * 100)

/-- JavaScript `code.toUpperCase()`, modelled character-wise over the
string's data (ASCII-sufficient for promo codes). -/
def jsToUpper (s : String) : String := ⟨s.data.map Char.toUpper⟩

/-- The offer predicate shared by `validatePromo` and `createOrder`:
code match against the stored uppercase code, active, inside the validity
window (inclusive), redemption cap not reached. -/
def offerMatches (now : JSDate) (code : String) (o : Offer) : Bool :=
  o.code == jsToUpper code && o.isActive &&
    JSDate.le o.validFrom now && JSDate.le now o.validUntil &&
    (o.maxRedemptions == -1 || o.currentRedemptions < o.maxRedemptions)

/-- Outcome of `validatePromo`. -/
inductive PromoResult where
  | err (status : Nat) (code : String)
  | ok (code : String) (discountPercentage : Rat)
deriving DecidableEq, Repr

/-- `validatePromo` from `subscriptionController.js`; the empty string
stands for an absent (falsy) body field.  Returns the response and the
store, which this handler never writes. -/
def validatePromo (store : Store) (now : JSDate) (code planId : String) :
    PromoResult × Store :=
  if code = "" || planId = "" then (.err 400 "MISSING_INPUT", store)
  else
    match findPlan store planId with
    | none => (.err 404 "PLAN_NOT_FOUND", store)
    | some plan =>
      match plan.offers.find? (offerMatches now code) with
      | none => (.err 400 "INVALID_PROMO", store)
      | some offer => (.ok offer.code offer.discountPercentage, store)

/-- The successful payload of `createOrder`: the amount the gateway
receives (paise), the currency, and the applied promo snapshot. -/
structure OrderResponse where
  amountPaise : Int
  currency : String
  appliedPromo : Option (String × Rat)
deriving DecidableEq, Repr

/-- Outcome of `createOrder`. -/
inductive OrderResult where
  | err (status : Nat) (code : String)
  | ok (resp : OrderResponse)
deriving DecidableEq, Repr

/-- `createOrder` from `subscriptionController.js`: price the billing
cycle, apply a matching valid promo as `round(amount * (1 - pct/100))`,
and hand the gateway `round(amount * 100)`.  This handler performs no
store write. -/
def createOrder (store : Store) (now : JSDate)
    (planId billingCycle promoCode : String) : OrderResult :=
  if planId = "" || billingCycle = "" then .err 400 "MISSING_INPUT"
  else
    match findPlan store planId with
    | none => .err 404 "PLAN_NOT_FOUND"
    | some plan =>
      if !plan.isActive then .err 404 "PLAN_NOT_FOUND"
      else if plan.tier == "free" then .err 400 "FREE_PLAN"
      else
        let base := if billingCycle == "yearly" then plan.pricing.yearly
                    else plan.pricing.monthly
        let promo := if promoCode ≠ "" then plan.offers.find? (offerMatches now promoCode)
                     else none
        let amount : Rat :=
          match promo with
          | some o => ((jsRound (base * (1 - o.discountPercentage / 100)) : Int) : Rat)
          | none => base
        .ok ⟨razorpayOrderAmount amount, plan.pricing.currency,
             promo.map (fun o => (o.code, o.discountPercentage))⟩

/-- The request body of `verifyPayment`; the empty string stands for an
absent (falsy) field. -/
structure VerifyInput where
  orderId : String
  paymentId : String
  signature : String
  planId : String
  billingCycle : String
  promoCode : String
deriving DecidableEq, Repr

/-- Outcome of `verifyPayment`. -/
inductive VerifyResult where
  | err (status : Nat) (code : String)
  | ok (sub : Subscription)
deriving DecidableEq, Repr

/-- `offer.currentRedemptions += 1` on the first offer whose code equals
`code` (the one `find` returned). -/
def bumpOffer (code : String) : List Offer → List Offer
  | [] => []
  | o :: rest =>
    if o.code == code then
      { o with currentRedemptions := o.currentRedemptions + 1 } :: rest
    else o :: bumpOffer code rest

/-- The final "update or create subscription" block of `verifyPayment`:
set plan / status `active` / cycle / dates / gateway ids / promo snapshot,
reset the four usage counters and the period, and append one `captured`
payment-history entry; creates the document when the user has none. -/
def upsertActiveSub (store1 : Store) (userId : String) (plan : Plan)
    (inp : VerifyInput) (now endDate : JSDate)
    (appliedPromo : Option (String × Rat)) (entry : PaymentEntry) :
    VerifyResult × Store :=
  let freshUsage : Usage :=
    { lyricsGenerated := 0, musicGenerated := 0, videoGenerated := 0,
      voiceGenerated := 0, periodStart := now, periodEnd := endDate }
  match findSub store1 userId with
  | some sub =>
    let sub' := { sub with
      plan := plan.id, status := "active", billingCycle := inp.billingCycle,
      startDate := now, endDate := some endDate, renewalDate := some endDate,
      orderId := some inp.orderId, paymentId := some inp.paymentId,
      appliedPromo := appliedPromo, usage := freshUsage,
      paymentHistory := sub.paymentHistory ++ [entry] }
    (.ok sub', saveSub store1 sub')
  | none =>
    let sub' : Subscription :=
      { user := userId, plan := plan.id, status := "active",
        billingCycle := inp.billingCycle, startDate := now,
        endDate := some endDate, renewalDate := some endDate,
        orderId := some inp.orderId, paymentId := some inp.paymentId,
        usage := freshUsage,
        adminOverride := ⟨false, none, none, none⟩,
        appliedPromo := appliedPromo, paymentHistory := [entry] }
    (.ok sub', insertSub store1 sub')

/-- `verifyPayment` from `subscriptionController.js`.  `fetchPaise` is the
outcome of `razorpay.fetchPayment` (amount in paise; `Except.error` for a
thrown fetch, which falls back to the plan's list price).  Returns the
response and the updated store; both error responses leave the store
untouched. -/
def verifyPayment (hmac : String → String → String) (secret : Option String)
    (fetchPaise : Except Unit Rat) (store : Store) (now : JSDate)
    (userId : String) (inp : VerifyInput) : VerifyResult × Store :=
  if inp.orderId = "" || inp.paymentId = "" || inp.signature = "" then
    (.err 400 "MISSING_PAYMENT_DETAILS", store)
  else if !verifyPaymentSignature hmac secret inp.orderId inp.paymentId inp.signature then
    (.err 400 "INVALID_SIGNATURE", store)
  else
    match findPlan store inp.planId with
    | none => (.err 404 "PLAN_NOT_FOUND", store)
    | some plan =>
      let endDate := if inp.billingCycle == "yearly" then addOneYearJS now
                     else addOneMonthJS now
      let promoFound :=
        if inp.promoCode ≠ "" then
          plan.offers.find? (fun o => o.code == jsToUpper inp.promoCode)
        else none
      let store1 :=
        match promoFound with
        | some _ => savePlan store
            { plan with offers := bumpOffer (jsToUpper inp.promoCode) plan.offers }
        | none => store
      let appliedPromo := promoFound.map (fun o => (o.code, o.discountPercentage))
      let paymentAmount : Rat :=
        match fetchPaise with
        | .ok a => a / 100
        | .error _ => if inp.billingCycle == "yearly" then plan.pricing.yearly
                      else plan.pricing.monthly
      let entry : PaymentEntry :=
        ⟨inp.paymentId, paymentAmount, plan.pricing.currency, "captured", now⟩
      upsertActiveSub store1 userId plan inp now endDate appliedPromo entry

/-- The `payload.payment.entity` fields the webhook handler reads. -/
structure WebhookPayment where
  id : String
  order_id : String
  amount : Rat
  currency : String
deriving DecidableEq, Repr

/-- The payment-history entry the `payment.captured` branch appends. -/
def capturedEntry (p : WebhookPayment) (now : JSDate) : PaymentEntry :=
  ⟨p.id, p.amount / 100, p.currency, "captured", now⟩

/-- The payment-history entry the `payment.failed` branch appends. -/
def failedEntry (p : WebhookPayment) (now : JSDate) : PaymentEntry :=
  ⟨p.id, p.amount / 100, p.currency, "failed", now⟩

/-- The `payment.captured` branch of the webhook: locate the subscription
by gateway order id, record the payment id, set status `active`, append a
`captured` history entry. -/
def handleCaptured (store : Store) (p : WebhookPayment) (now : JSDate) : Store :=
  match findSubByOrder store p.order_id with
  | none => store
  | some s =>
    saveSub store
      { s with paymentId := some p.id, status := "active",
               paymentHistory := s.paymentHistory ++ [capturedEntry p now] }

/-- The `payment.failed` branch of the webhook: same lookup, set status
`past_due`, append a `failed` history entry. -/
def handleFailed (store : Store) (p : WebhookPayment) (now : JSDate) : Store :=
  match findSubByOrder store p.order_id with
  | none => store
  | some s =>
    saveSub store
      { s with status := "past_due",
               paymentHistory := s.paymentHistory ++ [failedEntry p now] }

/-- The `webhook` handler: verify the header signature, dispatch on the
event name (unknown events are acknowledged with 200 and no state
change); returns the HTTP status and the updated store. -/
def webhook (hmac : String → String → String) (whSecret : Option String)
    (signature? : Option String) (rawBody : String) (event : String)
    (payment? : Option WebhookPayment) (now : JSDate) (store : Store) :
    Nat × Store :=
  match signature? with
  | none => (400, store)
  | some sig =>
    if !verifyWebhookSignature hmac whSecret rawBody sig then (400, store)
    else
      match event, payment? with
      | "payment.captured", some p => (200, handleCaptured store p now)
      | "payment.failed", some p => (200, handleFailed store p now)
      | _, _ => (200, store)

/-!  ## Theorems  -/

/-- The four recognized feature types. -/
def featureTypes : List String := ["lyrics", "music", "video", "voice"]

theorem limitMapping_eq_none {u : Usage} {pl : Limits} {t : String}
    (h : t ∉ featureTypes) : limitMapping u t pl = none := by
  simp only [featureTypes, List.mem_cons, List.not_mem_nil, or_false, not_or] at h
  obtain ⟨h1, h2, h3, h4⟩ := h
  simp [limitMapping, h1, h2, h3, h4]

/-- C1: `checkLimit` implements the quota decision table: for a recognized
feature type with usage counter `c` and plan limit `l`, `l = -1` gives
`{allowed := true, remaining := -1}`, `l = 0` gives
`{allowed := false, remaining := 0}`, and otherwise
`allowed = (c < l)` and `remaining = max 0 (l - c)`, which is never
negative; any unrecognized feature type yields
`{allowed := false, current := 0, limit := 0, remaining := 0}`. -/
theorem checkLimit_quota_table (u : Usage) (pl : Limits) (t : String) :
    (t ∉ featureTypes → checkLimit u t pl = ⟨false, 0, 0, 0⟩) ∧
    (∀ c l, limitMapping u t pl = some (c, l) →
      (l = -1 → checkLimit u t pl = ⟨true, c, -1, -1⟩) ∧
      (l = 0 → checkLimit u t pl = ⟨false, c, 0, 0⟩) ∧
      (l ≠ -1 → l ≠ 0 →
        checkLimit u t pl = ⟨decide (c < l), c, l, max 0 (l - c)⟩)) ∧
    ((checkLimit u t pl).limit ≠ -1 → 0 ≤ (checkLimit u t pl).remaining) := by
  refine ⟨?_, ?_, ?_⟩
  · intro h
    simp [checkLimit, limitMapping_eq_none h]
  · intro c l h
    refine ⟨?_, ?_, ?_⟩
    · intro hl
      simp [checkLimit, h, hl]
    · intro hl
      simp [checkLimit, h, hl]
    · intro h1 h0
      simp [checkLimit, h, h1, h0]
  · intro h
    unfold checkLimit at h ⊢
    rcases hm : limitMapping u t pl with _ | ⟨c, l⟩
    · simp
    · by_cases h1 : l = -1
      · simp [hm, h1] at h
      · by_cases h0 : l = 0
        · simp [h1, h0]
        · simp only [h1, h0, if_false]
          exact le_max_left 0 (l - c)

/-- Concrete witness data: a usage record with five lyrics generated. -/
def usage5 : Usage := ⟨5, 0, 0, 0, ⟨2025, 0, 1⟩, ⟨2025, 1, 1⟩⟩

/-- Concrete witness data: a free-tier limits record (5 lyrics / month,
no other features). -/
def limitsFree : Limits := ⟨5, 0, 0, 0⟩

theorem checkLimit_quota_table_witness :
    checkLimit usage5 "lyrics" limitsFree = ⟨decide ((5 : Int) < 5), 5, 5, max 0 (5 - 5)⟩ ∧
    checkLimit usage5 "banana" limitsFree = ⟨false, 0, 0, 0⟩ :=
  ⟨((checkLimit_quota_table usage5 limitsFree "lyrics").2.1 5 5 (by decide)).2.2
      (by decide) (by decide),
   (checkLimit_quota_table usage5 limitsFree "banana").1 (by decide)⟩

/-- Concrete witness data: a subscription whose usage period ended on
Jan 30, 2025. -/
def subJan : Subscription :=
  { user := "u1", plan := "p1", status := "active", billingCycle := "monthly",
    startDate := ⟨2024, 11, 1⟩, endDate := none, renewalDate := none,
    orderId := none, paymentId := none,
    usage := ⟨3, 0, 0, 0, ⟨2024, 11, 30⟩, ⟨2025, 0, 30⟩⟩,
    adminOverride := ⟨false, none, none, none⟩, appliedPromo := none,
    paymentHistory := [] }

/-- C2 counterexample: resetting on Jan 31, 2025 produces
`periodEnd = Mar 3, 2025` — the language-default `setMonth` day-overflow
rolled the date past February — not the clamped last day of February
(Feb 28, 2025) the claim requires. -/
theorem checkAndResetUsage_jan31_overflows :
    (checkAndResetUsage ⟨2025, 0, 31⟩ subJan).2 = true ∧
    (checkAndResetUsage ⟨2025, 0, 31⟩ subJan).1.usage.periodStart = ⟨2025, 0, 31⟩ ∧
    (checkAndResetUsage ⟨2025, 0, 31⟩ subJan).1.usage.periodEnd = ⟨2025, 2, 3⟩ ∧
    addOneMonthClamped ⟨2025, 0, 31⟩ = ⟨2025, 1, 28⟩ ∧
    (checkAndResetUsage ⟨2025, 0, 31⟩ subJan).1.usage.periodEnd ≠
      addOneMonthClamped ⟨2025, 0, 31⟩ := by
  refine ⟨by decide, by decide, by decide, by decide, by decide⟩

/-- C2 amended: when the usage-period rollover performs a reset, the new
`periodEnd` is the new `periodStart` (`now`) advanced by JavaScript's
`setMonth(getMonth() + 1)` arithmetic — deterministic, day-of-month kept,
but a day past the end of the target month overflows into the following
month rather than clamping (Jan 31 lands on Mar 3, not the last day of
February). -/
theorem checkAndResetUsage_reset_shape (now : JSDate) (s : Subscription)
    (h : JSDate.lt s.usage.periodEnd now = true) :
    checkAndResetUsage now s =
      ({ s with usage := ⟨0, 0, 0, 0, now, addOneMonthJS now⟩ }, true) := by
  simp [checkAndResetUsage, h]

theorem checkAndResetUsage_reset_shape_witness :
    checkAndResetUsage ⟨2025, 0, 31⟩ subJan =
      ({ subJan with usage := ⟨0, 0, 0, 0, ⟨2025, 0, 31⟩,
          addOneMonthJS ⟨2025, 0, 31⟩⟩ }, true) :=
  checkAndResetUsage_reset_shape ⟨2025, 0, 31⟩ subJan (by decide)

/-- The data-model convention on plan limits: `-1` (unlimited), `0`
(unavailable), or a positive quota — i.e. every limit is at least `-1`. -/
def limitsValid (l : Limits) : Prop :=
  -1 ≤ l.lyricsPerMonth ∧ -1 ≤ l.musicGenerations ∧
    -1 ≤ l.videoGenerations ∧ -1 ≤ l.voiceGenerations

theorem limitMapping_limit_mem {u : Usage} {pl : Limits} {t : String}
    {c l : Int} (h : limitMapping u t pl = some (c, l)) :
    l = pl.lyricsPerMonth ∨ l = pl.musicGenerations ∨
      l = pl.videoGenerations ∨ l = pl.voiceGenerations := by
  unfold limitMapping at h
  split_ifs at h <;> simp_all

theorem checkLimit_denied_remaining (u : Usage) (t : String) (pl : Limits)
    (h : (checkLimit u t pl).allowed = false) :
    (checkLimit u t pl).remaining = 0 := by
  unfold checkLimit at h ⊢
  rcases hm : limitMapping u t pl with _ | ⟨c, l⟩
  · simp
  · rw [hm] at h
    by_cases h1 : l = -1
    · simp [h1] at h
    · by_cases h0 : l = 0
      · simp [h1, h0]
      · simp only [h1, h0, if_false] at h ⊢
        simp only [decide_eq_false_iff_not, not_lt] at h
        omega

theorem checkLimit_denied_limit_cases (u : Usage) (t : String) (pl : Limits)
    (hv : limitsValid pl) (h : (checkLimit u t pl).allowed = false) :
    (checkLimit u t pl).limit = 0 ∨ 0 < (checkLimit u t pl).limit := by
  unfold checkLimit at h ⊢
  rcases hm : limitMapping u t pl with _ | ⟨c, l⟩
  · simp
  · rw [hm] at h
    by_cases h1 : l = -1
    · simp [h1] at h
    · by_cases h0 : l = 0
      · simp [h1, h0]
      · simp only [h1, h0, if_false]
        obtain ⟨v1, v2, v3, v4⟩ := hv
        rcases limitMapping_limit_mem hm with he | he | he | he <;> omega

/-- C4: the `checkUsageLimit` middleware resolves every request to exactly
one of: 401 `NO_USER` with no authenticated user; fail-open pass-through
when loading/evaluation threw; 403 `NO_SUBSCRIPTION` when there is no
subscription or its plan does not resolve; 403 `SUBSCRIPTION_INACTIVE`
when the status is neither `active` nor `trial`; 403
`FEATURE_NOT_AVAILABLE` when the quota decision denies with limit 0; 429
`USAGE_LIMIT_REACHED` carrying current/limit/remaining/periodEnd when it
denies with limit > 0 (the only other denial shape under the plan-limit
convention); and otherwise pass-through with the subscription attached. -/
theorem checkUsageLimit_cases (type : String) (user? : Option String)
    (loaded : Except Unit (Option (Subscription × Option Plan))) :
    (user? = none → checkUsageLimit type user? loaded = .reject 401 "NO_USER") ∧
    (user? ≠ none →
      (loaded = .error () → checkUsageLimit type user? loaded = .proceed none) ∧
      (loaded = .ok none →
          checkUsageLimit type user? loaded = .reject 403 "NO_SUBSCRIPTION") ∧
      (∀ s, loaded = .ok (some (s, none)) →
          checkUsageLimit type user? loaded = .reject 403 "NO_SUBSCRIPTION") ∧
      (∀ s p, loaded = .ok (some (s, some p)) →
        (s.status ≠ "active" → s.status ≠ "trial" →
            checkUsageLimit type user? loaded =
              .reject 403 "SUBSCRIPTION_INACTIVE") ∧
        (s.status = "active" ∨ s.status = "trial" →
          ((checkLimit s.usage type p.limits).allowed = false →
              (checkLimit s.usage type p.limits).limit = 0 →
              checkUsageLimit type user? loaded =
                .reject 403 "FEATURE_NOT_AVAILABLE") ∧
          ((checkLimit s.usage type p.limits).allowed = false →
              0 < (checkLimit s.usage type p.limits).limit →
              checkUsageLimit type user? loaded =
                .limitReject 429 "USAGE_LIMIT_REACHED"
                  (checkLimit s.usage type p.limits).current
                  (checkLimit s.usage type p.limits).limit
                  (checkLimit s.usage type p.limits).remaining
                  s.usage.periodEnd) ∧
          (limitsValid p.limits →
              (checkLimit s.usage type p.limits).allowed = false →
              (checkLimit s.usage type p.limits).limit = 0 ∨
                0 < (checkLimit s.usage type p.limits).limit) ∧
          ((checkLimit s.usage type p.limits).allowed = true →
              checkUsageLimit type user? loaded = .proceed (some s))))) := by
  constructor
  · intro h
    subst h
    rfl
  · intro hu
    obtain ⟨uid, hu⟩ := Option.ne_none_iff_exists'.mp hu
    subst hu
    refine ⟨?_, ?_, ?_, ?_⟩
    · intro h
      subst h
      rfl
    · intro h
      subst h
      rfl
    · intro s h
      subst h
      rfl
    · intro s p h
      subst h
      constructor
      · intro h1 h2
        simp [checkUsageLimit, h1, h2]
      · intro hst
        have hcond : (s.status != "active" && s.status != "trial") = false := by
          rcases hst with h | h <;> simp [h]
        refine ⟨?_, ?_, ?_, ?_⟩
        · intro ha hl
          simp [checkUsageLimit, hcond, ha, hl]
        · intro ha hl
          have hr := checkLimit_denied_remaining s.usage type p.limits ha
          have hl0 : ¬ (checkLimit s.usage type p.limits).limit = 0 := by omega
          simp [checkUsageLimit, hcond, ha, hl0, hr]
        · intro hv ha
          exact checkLimit_denied_limit_cases s.usage type p.limits hv ha
        · intro ha
          simp [checkUsageLimit, hcond, ha]

/-- Concrete witness data: an active subscription at its lyrics limit. -/
def subAtLimit : Subscription :=
  { subJan with usage := usage5 }

/-- Concrete witness data: a free plan document. -/
def planFree : Plan :=
  { id := "p1", name := "Free", tier := "free", isActive := true,
    pricing := ⟨0, 0, "INR"⟩, limits := limitsFree, offers := [] }

theorem checkUsageLimit_cases_witness :
    checkUsageLimit "lyrics" (some "u1")
        (.ok (some (subAtLimit, some planFree))) =
      .limitReject 429 "USAGE_LIMIT_REACHED" 5 5 0 ⟨2025, 1, 1⟩ := by
  have h := ((((checkUsageLimit_cases "lyrics" (some "u1")
      (.ok (some (subAtLimit, some planFree)))).2 (by simp)).2.2.2
      subAtLimit planFree rfl).2 (by left; rfl)).2.1 (by decide) (by decide)
  rw [h]
  decide

/-- C5: `verifyPayment` fails with `MISSING_PAYMENT_DETAILS` whenever any
of orderId / paymentId / signature is absent, and with
`INVALID_SIGNATURE` whenever the HMAC check over `orderId|paymentId`
does not produce the supplied signature; in both cases the returned store
is exactly the input store — no subscription created or updated, no
payment history appended, no promo redemption incremented. -/
theorem verifyPayment_fail_closed (hmac : String → String → String)
    (secret : Option String) (fetchPaise : Except Unit Rat) (store : Store)
    (now : JSDate) (userId : String) (inp : VerifyInput) :
    ((inp.orderId = "" ∨ inp.paymentId = "" ∨ inp.signature = "") →
      verifyPayment hmac secret fetchPaise store now userId inp =
        (.err 400 "MISSING_PAYMENT_DETAILS", store)) ∧
    (inp.orderId ≠ "" → inp.paymentId ≠ "" → inp.signature ≠ "" →
      verifyPaymentSignature hmac secret inp.orderId inp.paymentId
          inp.signature = false →
      verifyPayment hmac secret fetchPaise store now userId inp =
        (.err 400 "INVALID_SIGNATURE", store)) := by
  constructor
  · intro h
    unfold verifyPayment
    rcases h with h | h | h <;> simp [h]
  · intro h1 h2 h3 hsig
    unfold verifyPayment
    simp [h1, h2, h3, hsig]

/-- Concrete witness data: a store holding one Pro plan with a `SAVE20`
offer and no subscriptions. -/
def offer20 : Offer :=
  { code := "SAVE20", discountPercentage := 20,
    validFrom := ⟨2025, 0, 1⟩, validUntil := ⟨2025, 11, 31⟩,
    maxRedemptions := -1, currentRedemptions := 0, isActive := true }

/-- Concrete witness data: a Pro plan priced 1000 INR / month. -/
def planPro : Plan :=
  { id := "pro1", name := "Pro", tier := "pro", isActive := true,
    pricing := ⟨1000, 9999, "INR"⟩, limits := ⟨30, 5, 0, 3⟩,
    offers := [offer20] }

/-- Concrete witness data: a store with the Pro plan and no subscriptions. -/
def storePro : Store := ⟨[planPro], []⟩

/-- Concrete witness data: a keyed-concatenation stand-in for HMAC. -/
def hmacT (key body : String) : String := key ++ ":" ++ body

theorem verifyPayment_fail_closed_witness :
    verifyPayment hmacT (some "k") (.error ()) storePro ⟨2025, 5, 1⟩ "u1"
        ⟨"ord1", "pay1", "bad", "pro1", "monthly", ""⟩ =
      (.err 400 "INVALID_SIGNATURE", storePro) :=
  (verifyPayment_fail_closed hmacT (some "k") (.error ()) storePro
      ⟨2025, 5, 1⟩ "u1" ⟨"ord1", "pay1", "bad", "pro1", "monthly", ""⟩).2
    (by decide) (by decide) (by decide) (by decide)

theorem checkAndResetUsage_of_lt {now : JSDate} {s : Subscription}
    (h : JSDate.lt s.usage.periodEnd now = true) :
    checkAndResetUsage now s =
      ({ s with usage := ⟨0, 0, 0, 0, now, addOneMonthJS now⟩ }, true) := by
  simp [checkAndResetUsage, h]

theorem checkAndResetUsage_of_not_lt {now : JSDate} {s : Subscription}
    (h : JSDate.lt s.usage.periodEnd now = false) :
    checkAndResetUsage now s = (s, false) := by
  simp [checkAndResetUsage, h]

theorem find?_map_replace (l : List Subscription) (userId : String)
    {s : Subscription} (t : Subscription)
    (hfind : l.find? (fun x => x.user == userId) = some s)
    (huser : t.user = s.user) :
    (l.map (fun x => if x.user == t.user then t else x)).find?
      (fun x => x.user == userId) = some t := by
  induction l with
  | nil => simp at hfind
  | cons a l ih =>
    by_cases ha : (a.user == userId) = true
    · simp only [List.find?, ha] at hfind
      obtain rfl : a = s := by simpa using hfind
      have hat : (a.user == t.user) = true := by
        rw [huser]
        exact beq_self_eq_true _
      have hts : (t.user == userId) = true := by
        rw [huser]
        exact ha
      simp only [List.map_cons, hat, if_true]
      simp only [List.find?, hts]
    · have ha' : (a.user == userId) = false := by
        simpa using ha
      simp only [List.find?, ha'] at hfind
      have hs : s.user = userId := by
        have := List.find?_some hfind
        simpa using this
      have hat : (a.user == t.user) = false := by
        rw [huser, hs]
        exact ha'
      simp only [List.map_cons, hat, Bool.false_eq_true, if_false]
      simp only [List.find?, ha']
      exact ih hfind

theorem findSub_saveSub (store : Store) (userId : String)
    {s : Subscription} (t : Subscription)
    (hfind : findSub store userId = some s) (huser : t.user = s.user) :
    findSub (saveSub store t) userId = some t :=
  find?_map_replace store.subs userId t hfind huser

theorem findFreePlan_saveSub (store : Store) (t : Subscription) :
    findFreePlan (saveSub store t) = findFreePlan store := rfl

theorem getForUser_eq_some (store : Store) (userId : String) (now : JSDate)
    (s : Subscription) (h : findSub store userId = some s) :
    getForUser store userId now =
      (let r := checkAndResetUsage now s
       let sub1 := r.1
       let store1 := if r.2 then saveSub store sub1 else store
       if endDatePassed now sub1 && sub1.status == "active" then
         match findFreePlan store1 with
         | some freePlan =>
           let sub2 := { sub1 with plan := freePlan.id, status := "expired",
                                   billingCycle := "none" }
           (some sub2, saveSub store1 sub2)
         | none => (some sub1, store1)
       else (some sub1, store1)) := by
  unfold getForUser
  rw [h]

/-- C6: `getForUser` resolves on read: with no stored subscription it
returns `null` and leaves the store alone; when the usage period has
lapsed it resets the counters/period and persists the result; when
`endDate` has passed while the status is still `active` (and a free plan
exists in the catalog) it reassigns the subscription to the free-tier
plan with status `expired` and billing cycle `none`, persisting before
returning; and with neither condition it returns the stored record
without writing. -/
theorem getForUser_resolve_on_read (store : Store) (userId : String)
    (now : JSDate) :
    (findSub store userId = none → getForUser store userId now = (none, store)) ∧
    (∀ s, findSub store userId = some s →
      JSDate.lt s.usage.periodEnd now = true →
      ∃ sub' store', getForUser store userId now = (some sub', store') ∧
        sub'.usage = ⟨0, 0, 0, 0, now, addOneMonthJS now⟩ ∧
        findSub store' userId = some sub') ∧
    (∀ s e fp, findSub store userId = some s →
      s.endDate = some e → JSDate.lt e now = true → s.status = "active" →
      findFreePlan store = some fp →
      ∃ sub' store', getForUser store userId now = (some sub', store') ∧
        sub'.plan = fp.id ∧ sub'.status = "expired" ∧
        sub'.billingCycle = "none" ∧
        findSub store' userId = some sub') ∧
    (∀ s, findSub store userId = some s →
      JSDate.lt s.usage.periodEnd now = false →
      (endDatePassed now s && s.status == "active") = false →
      getForUser store userId now = (some s, store)) := by
  refine ⟨?_, ?_, ?_, ?_⟩
  · intro h
    unfold getForUser
    rw [h]
  · intro s hfind hlt
    have hG := getForUser_eq_some store userId now s hfind
    rw [checkAndResetUsage_of_lt hlt] at hG
    simp only [if_true] at hG
    split at hG
    · split at hG
      · refine ⟨_, _, hG, rfl, ?_⟩
        exact findSub_saveSub _ userId _
          (findSub_saveSub store userId _ hfind rfl) rfl
      · exact ⟨_, _, hG, rfl, findSub_saveSub store userId _ hfind rfl⟩
    · exact ⟨_, _, hG, rfl, findSub_saveSub store userId _ hfind rfl⟩
  · intro s e fp hfind he hlt hst hfp
    have hG := getForUser_eq_some store userId now s hfind
    cases hr : JSDate.lt s.usage.periodEnd now with
    | true =>
      rw [checkAndResetUsage_of_lt hr] at hG
      simp only [if_true] at hG
      have hcond : (endDatePassed now { s with usage := ⟨0, 0, 0, 0, now,
          addOneMonthJS now⟩ } && ({ s with usage := ⟨0, 0, 0, 0, now,
          addOneMonthJS now⟩ } : Subscription).status == "active") = true := by
        simp [endDatePassed, he, hlt, hst]
      rw [if_pos hcond, findFreePlan_saveSub, hfp] at hG
      refine ⟨_, _, hG, rfl, rfl, rfl, ?_⟩
      exact findSub_saveSub _ userId _
        (findSub_saveSub store userId _ hfind rfl) rfl
    | false =>
      rw [checkAndResetUsage_of_not_lt hr] at hG
      simp only [Bool.false_eq_true, if_false] at hG
      have hcond : (endDatePassed now s && s.status == "active") = true := by
        simp [endDatePassed, he, hlt, hst]
      rw [if_pos hcond, hfp] at hG
      exact ⟨_, _, hG, rfl, rfl, rfl,
        findSub_saveSub store userId _ hfind rfl⟩
  · intro s hfind hlt hcond
    have hG := getForUser_eq_some store userId now s hfind
    rw [checkAndResetUsage_of_not_lt hlt] at hG
    simp only [Bool.false_eq_true, if_false] at hG
    rw [if_neg ?_] at hG
    · exact hG
    · rw [hcond]
      exact Bool.false_ne_true

theorem getForUser_resolve_on_read_witness :
    getForUser ⟨[], []⟩ "nobody" ⟨2025, 5, 1⟩ = (none, ⟨[], []⟩) ∧
    getForUser ⟨[planPro], [subJan]⟩ "u1" ⟨2024, 11, 15⟩ =
      (some subJan, ⟨[planPro], [subJan]⟩) :=
  ⟨(getForUser_resolve_on_read ⟨[], []⟩ "nobody" ⟨2025, 5, 1⟩).1 rfl,
   (getForUser_resolve_on_read ⟨[planPro], [subJan]⟩ "u1" ⟨2024, 11, 15⟩).2.2.2
     subJan rfl (by decide) (by decide)⟩

/-- C7: `validatePromo` accepts a code iff the plan has an offer whose
stored (uppercase) code equals the supplied code uppercased, which is
active, whose validity window contains `now` inclusively, and whose
redemption cap is unlimited (`-1`) or not yet reached; any code with no
such offer — unknown, inactive, expired, or exhausted — is rejected with
`INVALID_PROMO`; and the handler never writes the store. -/
theorem validatePromo_valid_iff (store : Store) (now : JSDate)
    (code planId : String) (plan : Plan) (hc : code ≠ "") (hp : planId ≠ "")
    (hplan : findPlan store planId = some plan) :
    (∀ o : Offer, offerMatches now code o = true ↔
      (o.code = jsToUpper code ∧ o.isActive = true ∧
        JSDate.le o.validFrom now = true ∧ JSDate.le now o.validUntil = true ∧
        (o.maxRedemptions = -1 ∨ o.currentRedemptions < o.maxRedemptions))) ∧
    ((∀ o ∈ plan.offers, offerMatches now code o = false) →
      validatePromo store now code planId = (.err 400 "INVALID_PROMO", store)) ∧
    (∀ o, plan.offers.find? (offerMatches now code) = some o →
      validatePromo store now code planId =
        (.ok o.code o.discountPercentage, store)) ∧
    (validatePromo store now code planId).2 = store := by
  refine ⟨?_, ?_, ?_, ?_⟩
  · intro o
    unfold offerMatches
    simp [Bool.and_eq_true, Bool.or_eq_true, beq_iff_eq, decide_eq_true_eq,
      and_assoc]
  · intro hno
    have hfind : plan.offers.find? (offerMatches now code) = none :=
      List.find?_eq_none.mpr (fun o ho => by simp [hno o ho])
    simp [validatePromo, hc, hp, hplan, hfind]
  · intro o ho
    simp [validatePromo, hc, hp, hplan, ho]
  · unfold validatePromo
    split
    · rfl
    · split
      · rfl
      · split
        · rfl
        · rfl

theorem validatePromo_valid_iff_witness :
    validatePromo storePro ⟨2025, 5, 1⟩ "save20" "pro1" =
      (.ok offer20.code offer20.discountPercentage, storePro) :=
  (validatePromo_valid_iff storePro ⟨2025, 5, 1⟩ "save20" "pro1" planPro
      (by decide) (by decide) rfl).2.2.1 offer20 rfl

/-- C9: handling a `payment.failed` webhook event whose order id matches a
stored subscription saves that subscription with status `past_due` and
exactly one new `failed` payment-history entry appended, leaving the
plan and every other field unchanged. -/
theorem handleFailed_past_due_frame (store : Store) (p : WebhookPayment)
    (now : JSDate) (s : Subscription)
    (h : findSubByOrder store p.order_id = some s) :
    ∃ s', handleFailed store p now = saveSub store s' ∧
      s'.status = "past_due" ∧
      s'.paymentHistory = s.paymentHistory ++ [failedEntry p now] ∧
      (failedEntry p now).status = "failed" ∧
      (failedEntry p now).razorpayPaymentId = p.id ∧
      s'.plan = s.plan ∧ s'.user = s.user ∧
      s'.billingCycle = s.billingCycle ∧ s'.startDate = s.startDate ∧
      s'.endDate = s.endDate ∧ s'.renewalDate = s.renewalDate ∧
      s'.orderId = s.orderId ∧ s'.paymentId = s.paymentId ∧
      s'.usage = s.usage ∧ s'.adminOverride = s.adminOverride ∧
      s'.appliedPromo = s.appliedPromo := by
  refine ⟨⟨s.user, s.plan, "past_due", s.billingCycle, s.startDate, s.endDate,
      s.renewalDate, s.orderId, s.paymentId, s.usage, s.adminOverride,
      s.appliedPromo, s.paymentHistory ++ [failedEntry p now]⟩,
    ?_, rfl, rfl, rfl, rfl, rfl, rfl, rfl, rfl, rfl, rfl, rfl, rfl, rfl,
    rfl, rfl⟩
  unfold handleFailed
  rw [h]

/-- Concrete witness data: a subscription correlated with gateway order
`ord1`. -/
def subPaid : Subscription := { subJan with orderId := some "ord1" }

/-- Concrete witness data: a store holding the Pro plan and `subPaid`. -/
def storePaid : Store := ⟨[planPro], [subPaid]⟩

/-- Concrete witness data: a `payment.failed` / `payment.captured` payload
entity for order `ord1`. -/
def payT : WebhookPayment := ⟨"pay1", "ord1", 100000, "INR"⟩

theorem handleFailed_past_due_frame_witness :
    ∃ s', handleFailed storePaid payT ⟨2025, 5, 2⟩ = saveSub storePaid s' ∧
      s'.status = "past_due" ∧
      s'.paymentHistory = subPaid.paymentHistory ++ [failedEntry payT ⟨2025, 5, 2⟩] ∧
      (failedEntry payT ⟨2025, 5, 2⟩).status = "failed" ∧
      (failedEntry payT ⟨2025, 5, 2⟩).razorpayPaymentId = payT.id ∧
      s'.plan = subPaid.plan ∧ s'.user = subPaid.user ∧
      s'.billingCycle = subPaid.billingCycle ∧ s'.startDate = subPaid.startDate ∧
      s'.endDate = subPaid.endDate ∧ s'.renewalDate = subPaid.renewalDate ∧
      s'.orderId = subPaid.orderId ∧ s'.paymentId = subPaid.paymentId ∧
      s'.usage = subPaid.usage ∧ s'.adminOverride = subPaid.adminOverride ∧
      s'.appliedPromo = subPaid.appliedPromo :=
  handleFailed_past_due_frame storePaid payT ⟨2025, 5, 2⟩ subPaid rfl

/-- C10: a `createOrder` call supplying a promo code that matches no
currently valid offer on the plan does not fail with `INVALID_PROMO`: the
order is created at the full undiscounted billing-cycle price and the
response's applied promo is `none`. -/
theorem createOrder_ignores_invalid_promo (store : Store) (now : JSDate)
    (planId cycle pc : String) (plan : Plan) (hpid : planId ≠ "")
    (hcyc : cycle ≠ "") (hplan : findPlan store planId = some plan)
    (hactive : plan.isActive = true) (htier : ¬ plan.tier = "free")
    (hno : ∀ o ∈ plan.offers, offerMatches now pc o = false) :
    createOrder store now planId cycle pc =
      .ok ⟨razorpayOrderAmount (if cycle == "yearly" then plan.pricing.yearly
              else plan.pricing.monthly),
           plan.pricing.currency, none⟩ := by
  have hfind : plan.offers.find? (offerMatches now pc) = none :=
    List.find?_eq_none.mpr (fun o ho => by simp [hno o ho])
  by_cases hpc : pc = ""
  · simp [createOrder, hpid, hcyc, hplan, hactive, htier, hpc]
  · simp [createOrder, hpid, hcyc, hplan, hactive, htier, hpc, hfind]

/-- Concrete witness data: an exhausted offer (cap 1, already redeemed). -/
def offerSpent : Offer :=
  { code := "SPENT", discountPercentage := 50,
    validFrom := ⟨2025, 0, 1⟩, validUntil := ⟨2025, 11, 31⟩,
    maxRedemptions := 1, currentRedemptions := 1, isActive := true }

/-- Concrete witness data: a Premium plan whose only offer is exhausted. -/
def planPremium : Plan :=
  { id := "prem1", name := "Premium", tier := "premium", isActive := true,
    pricing := ⟨799, 7999, "INR"⟩, limits := ⟨100, 20, 10, 10⟩,
    offers := [offerSpent] }

theorem createOrder_ignores_invalid_promo_witness :
    createOrder ⟨[planPremium], []⟩ ⟨2025, 5, 1⟩ "prem1" "monthly" "SPENT" =
      .ok ⟨razorpayOrderAmount
            (if ("monthly" == "yearly") then planPremium.pricing.yearly
             else planPremium.pricing.monthly),
           planPremium.pricing.currency, none⟩ :=
  createOrder_ignores_invalid_promo ⟨[planPremium], []⟩ ⟨2025, 5, 1⟩ "prem1"
    "monthly" "SPENT" planPremium (by decide) (by decide) rfl rfl (by decide)
    (by intro o ho; simp [planPremium] at ho; subst ho; rfl)

/-- C8: `createOrder` with a matching valid promo prices the order as
`round(base * (1 - pct/100))` over the billing-cycle base price and hands
the gateway that amount converted to paise by `round(amount * 100)`. -/
theorem createOrder_promo_discount (store : Store) (now : JSDate)
    (planId cycle pc : String) (plan : Plan) (o : Offer) (hpid : planId ≠ "")
    (hcyc : cycle ≠ "") (hplan : findPlan store planId = some plan)
    (hactive : plan.isActive = true) (htier : ¬ plan.tier = "free")
    (hpc : pc ≠ "") (hfind : plan.offers.find? (offerMatches now pc) = some o) :
    createOrder store now planId cycle pc =
      .ok ⟨jsRound (((jsRound ((if cycle == "yearly" then plan.pricing.yearly
              else plan.pricing.monthly) * (1 - o.discountPercentage / 100)) : Int) : Rat)
              * 100),
           plan.pricing.currency, some (o.code, o.discountPercentage)⟩ := by
  simp [createOrder, razorpayOrderAmount, hpid, hcyc, hplan, hactive, htier,
    hpc, hfind]

theorem createOrder_promo_discount_witness :
    createOrder storePro ⟨2025, 5, 1⟩ "pro1" "monthly" "save20" =
      .ok ⟨80000, "INR", some ("SAVE20", 20)⟩ := by
  have h := createOrder_promo_discount storePro ⟨2025, 5, 1⟩ "pro1" "monthly"
    "save20" planPro offer20 (by decide) (by decide) rfl rfl (by decide)
    (by decide) (by rfl)
  rw [h]
  norm_num [planPro, offer20, jsRound,
    if_neg (show ¬("monthly" : String) = "yearly" by decide)]

/-- Concrete witness data: a syntactically valid `verifyPayment` body for
order `ord1` / payment `pay1` (signature matching `hmacT` with key `k`),
activating the Pro plan monthly with no promo code. -/
def inpPay : VerifyInput :=
  ⟨"ord1", "pay1", "k:ord1|pay1", "pro1", "monthly", ""⟩

/-- C3 counterexample: delivering the synchronous `verifyPayment` call and
then the `payment.captured` webhook for the same payment id `pay1` leaves
the subscription with TWO payment-history entries for that id, not one —
activation is not idempotent per payment id. -/
theorem payment_double_delivery_duplicates_history :
    ((findSub (handleCaptured
        (verifyPayment hmacT (some "k") (.error ()) storePro ⟨2025, 5, 1⟩
          "u1" inpPay).2
        payT ⟨2025, 5, 1⟩) "u1").map
      (fun s => (s.status, s.paymentHistory.map
        (fun e => e.razorpayPaymentId)))) =
      some ("active", ["pay1", "pay1"]) := by
  rfl

theorem upsertActiveSub_ok (store1 : Store) (userId : String) (plan : Plan)
    (inp : VerifyInput) (now endDate : JSDate) (ap : Option (String × Rat))
    (e : PaymentEntry) (r : Subscription) (store' : Store)
    (h : upsertActiveSub store1 userId plan inp now endDate ap e =
      (.ok r, store')) :
    r.status = "active" ∧ ∃ pre, r.paymentHistory = pre ++ [e] := by
  unfold upsertActiveSub at h
  split at h
  · simp only [Prod.mk.injEq, VerifyResult.ok.injEq] at h
    obtain ⟨rfl, -⟩ := h
    exact ⟨rfl, _, rfl⟩
  · simp only [Prod.mk.injEq, VerifyResult.ok.injEq] at h
    obtain ⟨rfl, -⟩ := h
    exact ⟨rfl, [], rfl⟩

/-- C3 amended: payment activation is not idempotent per payment id — each
delivery appends its own payment-history entry.  Every successful
`verifyPayment` returns an `active` subscription whose history ends with a
fresh `captured` entry for the verified payment id, and every
`payment.captured` webhook whose order id matches a stored subscription
saves it back with one more `captured` entry appended (so double delivery
yields two entries for the same payment id; the status is `active` either
way). -/
theorem payment_activation_appends_per_delivery :
    (∀ store p now s, findSubByOrder store p.order_id = some s →
      handleCaptured store p now =
        saveSub store
          { s with paymentId := some p.id, status := "active",
                   paymentHistory := s.paymentHistory ++ [capturedEntry p now] }) ∧
    (∀ hm secret fetch store now userId inp r store',
      verifyPayment hm secret fetch store now userId inp = (.ok r, store') →
      r.status = "active" ∧
      ∃ pre amt cur, r.paymentHistory =
        pre ++ [⟨inp.paymentId, amt, cur, "captured", now⟩]) := by
  constructor
  · intro store p now s h
    unfold handleCaptured
    rw [h]
  · intro hm secret fetch store now userId inp r store' h
    unfold verifyPayment at h
    split at h
    · simp at h
    · split at h
      · simp at h
      · split at h
        · simp at h
        · obtain ⟨h1, pre, h2⟩ := upsertActiveSub_ok _ _ _ _ _ _ _ _ _ _ h
          exact ⟨h1, pre, _, _, h2⟩

theorem payment_activation_appends_per_delivery_witness :
    handleCaptured storePaid payT ⟨2025, 5, 2⟩ =
      saveSub storePaid
        { subPaid with paymentId := some payT.id, status := "active",
                       paymentHistory := subPaid.paymentHistory ++
                         [capturedEntry payT ⟨2025, 5, 2⟩] } :=
  payment_activation_appends_per_delivery.1 storePaid payT ⟨2025, 5, 2⟩
    subPaid rfl

end CreateWriter
